import Mathlib

/-!
Shallow embedding of the tourney-backend Phase 4A patch scripts
(`apply-phase-4a-changes.py` and `apply-phase-4a-complete.py`).

Both scripts are straight-line Python: `update_divisions_file` threads one
string through a fixed sequence of `re.sub` calls, and `main` reads one
hard-coded file, applies `update_divisions_file`, and writes the result back.

The regex engine below models CPython `re.sub` restricted to the constructs
actually occurring in the script patterns: literal runs, `\s+`, `\s*`,
lazy `.*?` under `re.DOTALL`, capturing groups over capture-free bodies
(no pattern in either script nests one capturing group inside another),
optional capturing groups `( ... )?`, two-way literal alternation
`(lit1|lit2)`, and character classes.  Observed CPython semantics that the
model reproduces:
  * scanning is leftmost, matches are non-overlapping, and after an empty
    match the scan advances one character;
  * quantifiers backtrack (greedy longest-first, lazy shortest-first);
  * a replacement template referencing a group number larger than the
    group count of the pattern raises `re.error` at the `re.sub` call, even
    when the pattern has zero occurrences in the text (template references
    are validated eagerly, before any match is attempted);
  * a template reference to an optional group that did not participate in
    the match expands to the empty string (it does not raise).
`Option` is the error monad: `none` is a raised `re.error`.
-/

set_option maxRecDepth 200000

namespace Phase4A

/-- Characters matched by Python regex `\s` (the ASCII subset; all inputs
relevant to the scripts are ASCII). -/
def isWs (c : Char) : Bool :=
  c = ' ' || c = '\t' || c = '\n' || c = '\r' || c = '\x0b' || c = '\x0c'

/-- One item of a compiled match pattern.  A pattern is a `List RItem`
matched in sequence.  Capturing groups (`grp`, `grpOpt`, `alt2`) contain
capture-free bodies, mirroring the script patterns, which never nest
capturing groups. -/
inductive RItem where
  | lit : List Char → RItem
  | cls : List Char → RItem
  | wsPlus : RItem
  | wsStar : RItem
  | dotLazy : RItem
  | grp : List RItem → RItem
  | grpOpt : List RItem → RItem
  | alt2 : List Char → List Char → RItem

/-- Captured-group values of one match, in group-number order.
`none` records an optional group that did not participate in the match. -/
def Caps : Type := List (Option (List Char))

mutual

/-- Size of one pattern item, used to bound matcher fuel. -/
def itemSize : RItem → Nat
  | RItem.lit s => s.length + 1
  | RItem.cls _ => 1
  | RItem.wsPlus => 1
  | RItem.wsStar => 1
  | RItem.dotLazy => 1
  | RItem.grp l => patSize l + 2
  | RItem.grpOpt l => patSize l + 2
  | RItem.alt2 a b => a.length + b.length + 2

/-- Size of a pattern, used to bound matcher fuel. -/
def patSize : List RItem → Nat
  | [] => 1
  | i :: r => itemSize i + patSize r

end

/-- Number of capturing groups of a pattern (Python `pattern.groups`). -/
def groupCount : List RItem → Nat
  | [] => 0
  | RItem.grp _ :: r => 1 + groupCount r
  | RItem.grpOpt _ :: r => 1 + groupCount r
  | RItem.alt2 _ _ :: r => 1 + groupCount r
  | _ :: r => groupCount r

/-- Length of the leading whitespace run of a text. -/
def wsRun : List Char → Nat
  | [] => 0
  | c :: t => if isWs c then wsRun t + 1 else 0

/-- All ways (in Python backtracking order) to match a pattern against a
prefix of `t`.  Each result is the list of captures made, paired with the
unconsumed suffix of `t`.  Greedy `\s+`/`\s*` enumerate longest-first, lazy
`.*?` shortest-first, an optional group tries its body before skipping it,
and alternation tries its left branch first — exactly the CPython order for
these constructs.  `fuel` only forces termination; `fuelFor` below always
supplies enough for the enumeration to be exhaustive. -/
def matchSeq : Nat → List RItem → List Char → List (Caps × List Char)
  | 0, _, _ => []
  | _ + 1, [], t => [([], t)]
  | f + 1, RItem.lit s :: rest, t =>
      if s.isPrefixOf t then matchSeq f rest (t.drop s.length) else []
  | f + 1, RItem.cls cs :: rest, t =>
      match t with
      | [] => []
      | c :: t1 => if cs.contains c then matchSeq f rest t1 else []
  | f + 1, RItem.wsPlus :: rest, t =>
      ((List.range (wsRun t)).reverse.map (fun i => i + 1)).flatMap
        (fun i => matchSeq f rest (t.drop i))
  | f + 1, RItem.wsStar :: rest, t =>
      ((List.range (wsRun t + 1)).reverse).flatMap
        (fun i => matchSeq f rest (t.drop i))
  | f + 1, RItem.dotLazy :: rest, t =>
      (List.range (t.length + 1)).flatMap
        (fun i => matchSeq f rest (t.drop i))
  | f + 1, RItem.grp inner :: rest, t =>
      (matchSeq f inner t).flatMap (fun pr =>
        (matchSeq f rest pr.2).map
          (fun qr => (some (t.take (t.length - pr.2.length)) :: qr.1, qr.2)))
  | f + 1, RItem.grpOpt inner :: rest, t =>
      ((matchSeq f inner t).flatMap (fun pr =>
        (matchSeq f rest pr.2).map
          (fun qr => (some (t.take (t.length - pr.2.length)) :: qr.1, qr.2))))
        ++ (matchSeq f rest t).map (fun qr => (none :: qr.1, qr.2))
  | f + 1, RItem.alt2 a b :: rest, t =>
      (if a.isPrefixOf t then
        (matchSeq f rest (t.drop a.length)).map
          (fun qr => (some a :: qr.1, qr.2))
       else [])
        ++ (if b.isPrefixOf t then
        (matchSeq f rest (t.drop b.length)).map
          (fun qr => (some b :: qr.1, qr.2))
       else [])

/-- Fuel that makes `matchSeq` exhaustive: along any path the matcher
consumes one fuel unit per pattern item entered (including group bodies),
so `patSize` fuel already suffices; the extra factor is slack. -/
def fuelFor (p : List RItem) (t : List Char) : Nat :=
  (patSize p + 2) * (t.length + 2)

/-- First match of pattern `p` at the start of `t` (the Python backtracking
order), as captures plus number of characters consumed. -/
def matchHere (p : List RItem) (t : List Char) : Option (Caps × Nat) :=
  match (matchSeq (fuelFor p t) p t).head? with
  | none => none
  | some pr => some (pr.1, t.length - pr.2.length)

/-- Fueled scan counting the non-overlapping matches of `p`, scanning left
to right and advancing one character after an empty match.  Structural
recursion on the fuel keeps the definition kernel-computable; each step
consumes at least one character, so fuel `t.length + 1` is exact. -/
def cmGo (p : List RItem) : Nat → List Char → Nat
  | 0, _ => 0
  | _ + 1, [] => if (matchHere p []).isSome then 1 else 0
  | f + 1, c :: t1 =>
    match matchHere p (c :: t1) with
    | none => cmGo p f t1
    | some pr => 1 + cmGo p f (t1.drop (pr.2 - 1))

/-- Number of non-overlapping matches of `p` in `t` — the occurrences that
`re.sub`/`re.subn` with `count=0` would replace. -/
def countMatches (p : List RItem) (t : List Char) : Nat :=
  cmGo p (t.length + 1) t

/-- One item of a replacement template: a literal run, or a reference
`\n` to capture group `n`. -/
inductive TItem where
  | lit : List Char → TItem
  | ref : Nat → TItem

/-- Template expansion for one match (Python `re` template semantics):
a reference to an optional group that did not participate in the match
expands to the empty string.  An out-of-range reference also yields the
empty string here, but `subn` rejects such templates before any expansion
happens, mirroring the eager CPython template validation. -/
def expand (tm : List TItem) (caps : Caps) : List Char :=
  match tm with
  | [] => []
  | TItem.lit s :: r => s ++ expand r caps
  | TItem.ref n :: r => (((List.get? caps (n - 1)).getD none).getD []) ++ expand r caps

/-- Largest group number referenced by a template. -/
def maxRef : List TItem → Nat
  | [] => 0
  | TItem.lit _ :: r => maxRef r
  | TItem.ref n :: r => max n (maxRef r)

/-- Decrement an optional replacement budget (`none` = unlimited). -/
def decOpt : Option Nat → Option Nat
  | none => none
  | some n => some (n - 1)

/-- The scan-and-replace loop of `re.sub`, fueled for kernel
computability (each step consumes at least one character, so fuel
`t.length + 1` is exact): walk the text left to right; at each position,
if the pattern matches (and budget remains), emit the expanded template
and resume after the match (after one copied character for an empty
match); otherwise copy one character.  Returns the rewritten text and the
number of replacements made. -/
def subnGoF (p : List RItem) (tm : List TItem) :
    Nat → List Char → Option Nat → List Char × Nat
  | 0, t, _ => (t, 0)
  | _ + 1, [], left =>
    if left = some 0 then ([], 0)
    else
      match matchHere p [] with
      | none => ([], 0)
      | some pr => (expand tm pr.1, 1)
  | f + 1, c :: t1, left =>
    if left = some 0 then (c :: t1, 0)
    else
      match matchHere p (c :: t1) with
      | none =>
          let r := subnGoF p tm f t1 left
          (c :: r.1, r.2)
      | some pr =>
          let r := subnGoF p tm f (t1.drop (pr.2 - 1)) (decOpt left)
          if pr.2 = 0 then (expand tm pr.1 ++ c :: r.1, r.2 + 1)
          else (expand tm pr.1 ++ r.1, r.2 + 1)

/-- The scan-and-replace loop of `re.sub`/`re.subn` on a whole text,
returning the rewritten text and the number of replacements made. -/
def subnGo (p : List RItem) (tm : List TItem) (t : List Char)
    (left : Option Nat) : List Char × Nat :=
  subnGoF p tm (t.length + 1) t left

/-- One transformation rule: a `re.sub(pattern, repl, content, count)`
call.  `cnt` is the Python `count` argument, `0` meaning unlimited. -/
structure Rule where
  pat : List RItem
  tmpl : List TItem
  cnt : Nat

/-- Model of `re.subn(pat, tmpl, t, cnt)`.  As CPython does, the template
is validated against the group count of the pattern up front: an out-of-range
group reference raises (`none`) even when the pattern never matches. -/
def subn (r : Rule) (t : List Char) : Option (List Char × Nat) :=
  if maxRef r.tmpl ≤ groupCount r.pat then
    some (subnGo r.pat r.tmpl t (if r.cnt = 0 then none else some r.cnt))
  else none

/-- Model of `content = re.sub(pattern, repl, content, count)` on strings. -/
def applyRule (r : Rule) (t : String) : Option String :=
  (subn r t.data).map (fun pr => String.mk pr.1)

/-- Sequential application of an ordered rule list: each rule receives the
output text of the previous rule. -/
def applyRules (rs : List Rule) (t : String) : Option String :=
  rs.foldlM (fun c r => applyRule r c) t

/-- Character list of a string literal (patterns and templates are stored
as character lists). -/
def chars (s : String) : List Char := s.data

/-- The `re.sub` call at line 14 of apply-phase-4a-changes.py (rule 1 of its pipeline). -/
def changesRule1 : Rule :=
  { pat := [RItem.lit (chars "/**\n * Division CRUD endpoints.\n * Manages tournament divisions with full CRUD operations.\n */")],
    tmpl := [TItem.lit (chars "/**\n * Division CRUD endpoints (UPDATED - Phase 4A: Tournament Context).\n * All admin routes now require tournament context.\n *\n * Routes:\n * - POST   /tournaments/:tournamentId/divisions\n * - GET    /tournaments/:tournamentId/divisions\n * - GET    /tournaments/:tournamentId/divisions/:id\n * - PUT    /tournaments/:tournamentId/divisions/:id\n * - DELETE /tournaments/:tournamentId/divisions/:id\n * - POST   /tournaments/:tournamentId/divisions/:divisionId/generate-matches\n * - POST   /tournaments/:tournamentId/divisions/:divisionId/pools\n * - POST   /tournaments/:tournamentId/divisions/:divisionId/pools/bulk\n */")],
    cnt := 0 }

/-- The `re.sub` call at line 34 of apply-phase-4a-changes.py (rule 2 of its pipeline). -/
def changesRule2 : Rule :=
  { pat := [RItem.lit (chars "import \x7b divisions, teams, pools, matches, players, court_assignments \x7d from \x27../lib/db/schema.js\x27;")],
    tmpl := [TItem.lit (chars "import \x7b tournaments, divisions, teams, pools, matches, players, court_assignments \x7d from \x27../lib/db/schema.js\x27;")],
    cnt := 0 }

/-- The `re.sub` call at line 66 of apply-phase-4a-changes.py (rule 3 of its pipeline). -/
def changesRule3 : Rule :=
  { pat := [RItem.lit (chars "/**\n * Create division schema.\n */")],
    tmpl := [TItem.lit (chars "/**\n * Tournament ID parameter schema.\n */\nconst tournamentParamsSchema = z.object(\x7b\n  tournamentId: z.coerce.number().int().positive(),\n\x7d);\n\n/**\n * Tournament + Division ID parameter schema.\n */\nconst tournamentDivisionParamsSchema = z.object(\x7b\n  tournamentId: z.coerce.number().int().positive(),\n  id: z.coerce.number().int().positive(),\n\x7d);\n\n/**\n * Division ID parameter schema (for generate-matches and pools).\n */\nconst divisionIdParamsSchema = z.object(\x7b\n  tournamentId: z.coerce.number().int().positive(),\n  divisionId: z.coerce.number().int().positive(),\n\x7d);\n\n/**\n * Create division schema.\n */")],
    cnt := 0 }

/-- The `re.sub` call at line 73 of apply-phase-4a-changes.py (rule 4 of its pipeline). -/
def changesRule4 : Rule :=
  { pat := [RItem.lit (chars "/**\n * Division ID parameter schema.\n */\nconst divisionParamsSchema = z.object(\x7b\n  id: z.coerce.number().int().positive(),\n\x7d);\n\n")],
    tmpl := [],
    cnt := 0 }

/-- The `re.sub` call at line 80 of apply-phase-4a-changes.py (rule 5 of its pipeline). -/
def changesRule5 : Rule :=
  { pat := [RItem.lit (chars "fastify.post<\x7b"),
      RItem.wsPlus,
      RItem.lit (chars "Body: z.infer<typeof createDivisionSchema>;"),
      RItem.wsPlus,
      RItem.lit (chars "\x7d>\x27(\x27/divisions\x27, \x7b")],
    tmpl := [TItem.lit (chars "fastify.post<\x7b\n    Params: z.infer<typeof tournamentParamsSchema>;\n    Body: z.infer<typeof createDivisionSchema>;\n  \x7d>(\x27/tournaments/:tournamentId/divisions\x27, \x7b")],
    cnt := 0 }

/-- The ordered rule list of `update_divisions_file` in apply-phase-4a-changes.py. -/
def changesRules : List Rule :=
  [changesRule1,
   changesRule2,
   changesRule3,
   changesRule4,
   changesRule5]

/-- The `re.sub` call at line 87 of apply-phase-4a-complete.py (rule 1 of its pipeline). -/
def completeRule1 : Rule :=
  { pat := [RItem.grp [RItem.lit (chars "const divisionsRoutes: FastifyPluginAsync = async (fastify) => \x7b")]],
    tmpl := [TItem.ref 1,
      TItem.lit (chars "\n  /**\n   * Validate tournament exists and return it.\n   * Returns null and sends 404 response if not found.\n   */\n  async function validateTournament(tournamentId: number, reply: any) \x7b\n    const tournament = await db\n      .select()\n      .from(tournaments)\n      .where(eq(tournaments.id, tournamentId))\n      .limit(1)\n      .then((rows) => rows[0]);\n\n    if (!tournament) \x7b\n      reply.status(404).send(\x7b\n        error: \x27Tournament not found\x27,\n        message: \x60Tournament with ID $\x7btournamentId\x7d not found\x60,\n      \x7d);\n      return null;\n    \x7d\n\n    return tournament;\n  \x7d\n\n  /**\n   * Validate division belongs to tournament.\n   * Returns null and sends 403/404 response if validation fails.\n   */\n  async function validateDivisionInTournament(\n    tournamentId: number,\n    divisionId: number,\n    reply: any\n  ) \x7b\n    const division = await db\n      .select()\n      .from(divisions)\n      .where(eq(divisions.id, divisionId))\n      .limit(1)\n      .then((rows) => rows[0]);\n\n    if (!division) \x7b\n      reply.status(404).send(\x7b\n        error: \x27Division not found\x27,\n        message: \x60Division with ID $\x7bdivisionId\x7d not found\x60,\n      \x7d);\n      return null;\n    \x7d\n\n    if (division.tournament_id !== tournamentId) \x7b\n      reply.status(403).send(\x7b\n        error: \x27Forbidden\x27,\n        message: \x27Division does not belong to this tournament\x27,\n      \x7d);\n      return null;\n    \x7d\n\n    return division;\n  \x7d\n\n")],
    cnt := 0 }

/-- The `re.sub` call at line 96 of apply-phase-4a-complete.py (rule 2 of its pipeline). -/
def completeRule2 : Rule :=
  { pat := [RItem.lit (chars "fastify.post<\x7b"),
      RItem.wsPlus,
      RItem.lit (chars "Body: z.infer<typeof createDivisionSchema>;"),
      RItem.wsPlus,
      RItem.lit (chars "\x7d>\x27(\x27/divisions\x27,")],
    tmpl := [TItem.lit (chars "fastify.post<\x7b\n    Params: z.infer<typeof tournamentParamsSchema>;\n    Body: z.infer<typeof createDivisionSchema>;\n  \x7d>(\x27/tournaments/:tournamentId/divisions\x27,")],
    cnt := 0 }

/-- The `re.sub` call at line 172 of apply-phase-4a-complete.py (rule 3 of its pipeline). -/
def completeRule3 : Rule :=
  { pat := [RItem.lit (chars "  \x7d, async (request, reply) => \x7b\n    // Validate body\n    const bodyResult = createDivisionSchema.safeParse(request.body);\n    if (!bodyResult.success) \x7b\n      return reply.status(400).send(\x7b\n        error: \x27Invalid request body\x27,\n        details: bodyResult.error.flatten(),\n      \x7d);\n    \x7d\n\n    const \x7b name \x7d = bodyResult.data;\n\n    try \x7b\n      const [division] = await db\n        .insert(divisions)\n        .values(\x7b name \x7d)\n        .returning();\n\n      return reply.status(201).send(division);\n    \x7d catch (error) \x7b\n      fastify.log.error(\x7b error, name \x7d, \x27Error creating division\x27);\n      throw error;\n    \x7d\n  \x7d);")],
    tmpl := [TItem.lit (chars "  \x7d, async (request, reply) => \x7b\n    // Validate params\n    const paramsResult = tournamentParamsSchema.safeParse(request.params);\n    if (!paramsResult.success) \x7b\n      return reply.status(400).send(\x7b\n        error: \x27Invalid parameters\x27,\n        details: paramsResult.error.flatten(),\n      \x7d);\n    \x7d\n\n    // Validate body\n    const bodyResult = createDivisionSchema.safeParse(request.body);\n    if (!bodyResult.success) \x7b\n      return reply.status(400).send(\x7b\n        error: \x27Invalid request body\x27,\n        details: bodyResult.error.flatten(),\n      \x7d);\n    \x7d\n\n    const \x7b tournamentId \x7d = paramsResult.data;\n    const \x7b name \x7d = bodyResult.data;\n\n    try \x7b\n      // Validate tournament exists\n      const tournament = await validateTournament(tournamentId, reply);\n      if (!tournament) return;\n\n      // Create division with tournament_id\n      const [division] = await db\n        .insert(divisions)\n        .values(\x7b\n          name,\n          tournament_id: tournamentId,\n        \x7d)\n        .returning();\n\n      return reply.status(201).send(division);\n    \x7d catch (error) \x7b\n      fastify.log.error(\x7b error, tournamentId, name \x7d, \x27Error creating division\x27);\n      throw error;\n    \x7d\n  \x7d);")],
    cnt := 0 }

/-- The `re.sub` call at line 175 of apply-phase-4a-complete.py (rule 4 of its pipeline). -/
def completeRule4 : Rule :=
  { pat := [RItem.lit (chars "fastify.get<\x7b"),
      RItem.wsPlus,
      RItem.lit (chars "Querystring: z.infer<typeof listDivisionsQuerySchema>;"),
      RItem.wsPlus,
      RItem.lit (chars "\x7d>\x27(\x27/divisions\x27,")],
    tmpl := [TItem.lit (chars "fastify.get<\x7b\n    Params: z.infer<typeof tournamentParamsSchema>;\n    Querystring: z.infer<typeof listDivisionsQuerySchema>;\n  \x7d>(\x27/tournaments/:tournamentId/divisions\x27,")],
    cnt := 0 }

/-- The `re.sub` call at line 182 of apply-phase-4a-complete.py (rule 5 of its pipeline). -/
def completeRule5 : Rule :=
  { pat := [RItem.grp [RItem.wsPlus,
          RItem.lit (chars "\x7d\x7d>\x27(\x27/tournaments/:tournamentId/divisions\x27, async (request, reply) => \x7b")],
      RItem.wsPlus,
      RItem.lit (chars "// Validate query")],
    tmpl := [TItem.ref 1,
      TItem.lit (chars "\n    // Validate params\n    const paramsResult = tournamentParamsSchema.safeParse(request.params);\n    if (!paramsResult.success) \x7b\n      return reply.status(400).send(\x7b\n        error: \x27Invalid parameters\x27,\n        details: paramsResult.error.flatten(),\n      \x7d);\n    \x7d\n\n    const \x7b tournamentId \x7d = paramsResult.data;\n\n    // Validate query")],
    cnt := 0 }

/-- The `re.sub` call at line 201 of apply-phase-4a-complete.py (rule 6 of its pipeline). -/
def completeRule6 : Rule :=
  { pat := [RItem.grp [RItem.lit (chars "const \x7b limit, offset \x7d = queryResult.data;")],
      RItem.wsPlus,
      RItem.lit (chars "try \x7b"),
      RItem.wsPlus,
      RItem.lit (chars "// Get divisions with pagination"),
      RItem.wsPlus,
      RItem.lit (chars "const divisionsList = await db"),
      RItem.wsPlus,
      RItem.lit (chars ".select()"),
      RItem.wsPlus,
      RItem.lit (chars ".from(divisions)")],
    tmpl := [TItem.ref 1,
      TItem.lit (chars "\n\n    try \x7b\n      // Validate tournament exists\n      const tournament = await validateTournament(tournamentId, reply);\n      if (!tournament) return;\n\n      // Get divisions for this tournament with pagination\n      const divisionsList = await db\n        .select()\n        .from(divisions)\n        .where(eq(divisions.tournament_id, tournamentId))")],
    cnt := 0 }

/-- The `re.sub` call at line 219 of apply-phase-4a-complete.py (rule 7 of its pipeline). -/
def completeRule7 : Rule :=
  { pat := [RItem.lit (chars "// Get total count"),
      RItem.wsPlus,
      RItem.lit (chars "const countResult = await db"),
      RItem.wsPlus,
      RItem.lit (chars ".select(\x7b count: sql<number>\x60count(*)\x60 \x7d)"),
      RItem.wsPlus,
      RItem.lit (chars ".from(divisions);")],
    tmpl := [TItem.lit (chars "// Get total count for this tournament\n      const countResult = await db\n        .select(\x7b count: sql<number>\x60count(*)\x60 \x7d)\n        .from(divisions)\n        .where(eq(divisions.tournament_id, tournamentId));")],
    cnt := 0 }

/-- The `re.sub` call at line 238 of apply-phase-4a-complete.py (rule 8 of its pipeline). -/
def completeRule8 : Rule :=
  { pat := [RItem.lit (chars "fastify.get<\x7b"),
      RItem.wsPlus,
      RItem.lit (chars "Params: \x7b id: number \x7d;"),
      RItem.wsStar,
      RItem.grpOpt [RItem.lit (chars "Body: z.infer<typeof updateDivisionSchema>;")],
      RItem.wsStar,
      RItem.lit (chars "\x7d>\x27(\x27/divisions/:id\x27,")],
    tmpl := [TItem.lit (chars "fastify.get<\x7b\n    Params: z.infer<typeof tournamentDivisionParamsSchema>;\n  \x7d>(\x27/tournaments/:tournamentId/divisions/:id\x27,")],
    cnt := 0 }

/-- The `re.sub` call at line 238 of apply-phase-4a-complete.py (rule 9 of its pipeline). -/
def completeRule9 : Rule :=
  { pat := [RItem.lit (chars "fastify.put<\x7b"),
      RItem.wsPlus,
      RItem.lit (chars "Params: \x7b id: number \x7d;"),
      RItem.wsStar,
      RItem.grpOpt [RItem.lit (chars "Body: z.infer<typeof updateDivisionSchema>;")],
      RItem.wsStar,
      RItem.lit (chars "\x7d>\x27(\x27/divisions/:id\x27,")],
    tmpl := [TItem.lit (chars "fastify.put<\x7b\n    Params: z.infer<typeof tournamentDivisionParamsSchema>;\n    Body: z.infer<typeof updateDivisionSchema>;\n  \x7d>(\x27/tournaments/:tournamentId/divisions/:id\x27,")],
    cnt := 0 }

/-- The `re.sub` call at line 238 of apply-phase-4a-complete.py (rule 10 of its pipeline). -/
def completeRule10 : Rule :=
  { pat := [RItem.lit (chars "fastify.delete<\x7b"),
      RItem.wsPlus,
      RItem.lit (chars "Params: \x7b id: number \x7d;"),
      RItem.wsStar,
      RItem.grpOpt [RItem.lit (chars "Body: z.infer<typeof updateDivisionSchema>;")],
      RItem.wsStar,
      RItem.lit (chars "\x7d>\x27(\x27/divisions/:id\x27,")],
    tmpl := [TItem.lit (chars "fastify.delete<\x7b\n    Params: z.infer<typeof tournamentDivisionParamsSchema>;\n  \x7d>(\x27/tournaments/:tournamentId/divisions/:id\x27,")],
    cnt := 0 }

/-- The `re.sub` call at line 241 of apply-phase-4a-complete.py (rule 11 of its pipeline). -/
def completeRule11 : Rule :=
  { pat := [RItem.grp [RItem.lit (chars "\x7d>\x27(\x27/tournaments/:tournamentId/divisions/:id\x27, async (request, reply) => \x7b")],
      RItem.wsPlus,
      RItem.lit (chars "// Validate parameters"),
      RItem.wsPlus,
      RItem.lit (chars "const paramsResult = divisionParamsSchema.safeParse(request.params);")],
    tmpl := [TItem.ref 1,
      TItem.lit (chars "\n    // Validate parameters\n    const paramsResult = tournamentDivisionParamsSchema.safeParse(request.params);")],
    cnt := 0 }

/-- The `re.sub` call at line 249 of apply-phase-4a-complete.py (rule 12 of its pipeline). -/
def completeRule12 : Rule :=
  { pat := [RItem.grp [RItem.lit (chars "const paramsResult = tournamentDivisionParamsSchema.safeParse(request.params);"),
          RItem.dotLazy,
          RItem.lit (chars "const \x7b id \x7d = paramsResult.data;")],
      RItem.wsPlus,
      RItem.lit (chars "try \x7b")],
    tmpl := [TItem.ref 1,
      TItem.lit (chars "\n    const \x7b tournamentId, id \x7d = paramsResult.data;\n\n    try \x7b\n      // Validate division belongs to tournament\n      const division = await validateDivisionInTournament(tournamentId, id, reply);\n      if (!division) return;\n\n      // Division validated - continue with normal logic\n      try \x7b")],
    cnt := 1 }

/-- The `re.sub` call at line 267 of apply-phase-4a-complete.py (rule 13 of its pipeline). -/
def completeRule13 : Rule :=
  { pat := [RItem.grp [RItem.lit (chars "fastify.put<\x7b"),
          RItem.dotLazy,
          RItem.lit (chars "Params: z.infer<typeof tournamentDivisionParamsSchema>;"),
          RItem.dotLazy,
          RItem.lit (chars "\x7d\x7d>\x27(\x27/tournaments/:tournamentId/divisions/:id\x27,"),
          RItem.dotLazy,
          RItem.lit (chars "\x7d, async (request, reply) => \x7b")],
      RItem.wsPlus,
      RItem.lit (chars "// Validate parameters"),
      RItem.wsPlus,
      RItem.lit (chars "const paramsResult = divisionParamsSchema.safeParse")],
    tmpl := [TItem.ref 1,
      TItem.lit (chars "\n    // Validate parameters\n    const paramsResult = tournamentDivisionParamsSchema.safeParse")],
    cnt := 0 }

/-- The `re.sub` call at line 276 of apply-phase-4a-complete.py (rule 14 of its pipeline). -/
def completeRule14 : Rule :=
  { pat := [RItem.grp [RItem.lit (chars "// Validate parameters"),
          RItem.wsPlus,
          RItem.lit (chars "const paramsResult = tournamentDivisionParamsSchema.safeParse"),
          RItem.dotLazy,
          RItem.lit (chars "const \x7b id \x7d = paramsResult.data;")],
      RItem.wsPlus,
      RItem.grp [RItem.lit (chars "// Validate body")]],
    tmpl := [TItem.ref 1,
      TItem.lit (chars "\n    const \x7b tournamentId, id \x7d = paramsResult.data;\n\n    "),
      TItem.ref 2],
    cnt := 1 }

/-- The `re.sub` call at line 288 of apply-phase-4a-complete.py (rule 15 of its pipeline). -/
def completeRule15 : Rule :=
  { pat := [RItem.grp [RItem.lit (chars "const \x7b name \x7d = bodyResult.data;")],
      RItem.wsPlus,
      RItem.grp [RItem.lit (chars "try \x7b"),
          RItem.wsPlus,
          RItem.lit (chars "// Check if division exists")]],
    tmpl := [TItem.ref 1,
      TItem.lit (chars "\n\n    try \x7b\n      // Validate division belongs to tournament\n      const validDivision = await validateDivisionInTournament(tournamentId, id, reply);\n      if (!validDivision) return;\n\n      // Division validated - proceed with update\n      try \x7b\n        // Check if division exists (redundant but kept for consistency)")],
    cnt := 1 }

/-- The `re.sub` call at line 305 of apply-phase-4a-complete.py (rule 16 of its pipeline). -/
def completeRule16 : Rule :=
  { pat := [RItem.grp [RItem.lit (chars "fastify.delete<\x7b"),
          RItem.dotLazy,
          RItem.lit (chars "Params: z.infer<typeof tournamentDivisionParamsSchema>;"),
          RItem.dotLazy,
          RItem.lit (chars "\x7d\x7d>\x27(\x27/tournaments/:tournamentId/divisions/:id\x27,"),
          RItem.dotLazy,
          RItem.lit (chars "\x7d, async (request, reply) => \x7b")],
      RItem.wsPlus,
      RItem.lit (chars "// Validate parameters"),
      RItem.wsPlus,
      RItem.lit (chars "const paramsResult = divisionParamsSchema.safeParse")],
    tmpl := [TItem.ref 1,
      TItem.lit (chars "\n    // Validate parameters\n    const paramsResult = tournamentDivisionParamsSchema.safeParse")],
    cnt := 0 }

/-- The `re.sub` call at line 314 of apply-phase-4a-complete.py (rule 17 of its pipeline). -/
def completeRule17 : Rule :=
  { pat := [RItem.grp [RItem.lit (chars "// Validate parameters"),
          RItem.wsPlus,
          RItem.lit (chars "const paramsResult = tournamentDivisionParamsSchema.safeParse"),
          RItem.dotLazy,
          RItem.lit (chars "const \x7b id \x7d = paramsResult.data;")],
      RItem.wsPlus,
      RItem.grp [RItem.lit (chars "try \x7b")]],
    tmpl := [TItem.ref 1,
      TItem.lit (chars "\n    const \x7b tournamentId, id \x7d = paramsResult.data;\n\n    "),
      TItem.ref 2,
      TItem.lit (chars "\n      // Validate division belongs to tournament\n      const validDivision = await validateDivisionInTournament(tournamentId, id, reply);\n      if (!validDivision) return;\n\n      // Division validated - proceed with delete\n      try \x7b")],
    cnt := 1 }

/-- The `re.sub` call at line 333 of apply-phase-4a-complete.py (rule 18 of its pipeline). -/
def completeRule18 : Rule :=
  { pat := [RItem.lit (chars "fastify.post<\x7b"),
      RItem.wsPlus,
      RItem.lit (chars "Params: \x7b divisionId: number \x7d;"),
      RItem.wsPlus,
      RItem.lit (chars "Body: z.infer<typeof generateMatchesSchema>;"),
      RItem.wsPlus,
      RItem.lit (chars "\x7d>\x27(\x27/divisions/:divisionId/generate-matches\x27,")],
    tmpl := [TItem.lit (chars "fastify.post<\x7b\n    Params: z.infer<typeof divisionIdParamsSchema>;\n    Body: z.infer<typeof generateMatchesSchema>;\n  \x7d>(\x27/tournaments/:tournamentId/divisions/:divisionId/generate-matches\x27,")],
    cnt := 0 }

/-- The `re.sub` call at line 340 of apply-phase-4a-complete.py (rule 19 of its pipeline). -/
def completeRule19 : Rule :=
  { pat := [RItem.grp [RItem.lit (chars "\x7d>\x27(\x27/tournaments/:tournamentId/divisions/:divisionId/generate-matches\x27,"),
          RItem.dotLazy,
          RItem.lit (chars "\x7d, async (request, reply) => \x7b")],
      RItem.wsPlus,
      RItem.lit (chars "const divisionId = Number(request.params.divisionId);")],
    tmpl := [TItem.ref 1,
      TItem.lit (chars "\n    // Validate params\n    const paramsResult = divisionIdParamsSchema.safeParse(request.params);\n    if (!paramsResult.success) \x7b\n      return reply.status(400).send(\x7b\n        error: \x27Invalid parameters\x27,\n        details: paramsResult.error.flatten(),\n      \x7d);\n    \x7d\n\n    const \x7b tournamentId, divisionId \x7d = paramsResult.data;")],
    cnt := 0 }

/-- The `re.sub` call at line 358 of apply-phase-4a-complete.py (rule 20 of its pipeline). -/
def completeRule20 : Rule :=
  { pat := [RItem.grp [RItem.lit (chars "const \x7b format \x7d = bodyResult.data;"),
          RItem.dotLazy,
          RItem.lit (chars "try \x7b")],
      RItem.wsPlus,
      RItem.lit (chars "// Verify division exists")],
    tmpl := [TItem.ref 1,
      TItem.lit (chars "\n      // Validate division belongs to tournament\n      const validDivision = await validateDivisionInTournament(tournamentId, divisionId, reply);\n      if (!validDivision) return;\n\n      // Division validated - proceed with match generation\n      // Verify division exists (redundant check but kept)")],
    cnt := 1 }

/-- The `re.sub` call at line 373 of apply-phase-4a-complete.py (rule 21 of its pipeline). -/
def completeRule21 : Rule :=
  { pat := [RItem.wsPlus,
      RItem.lit (chars "if (isNaN(divisionId)) \x7b"),
      RItem.wsPlus,
      RItem.lit (chars "return reply.status(400).send(\x7b"),
      RItem.wsPlus,
      RItem.lit (chars "error: \x27Invalid division ID\x27,"),
      RItem.wsPlus,
      RItem.lit (chars "\x7d);"),
      RItem.wsPlus,
      RItem.lit (chars "\x7d"),
      RItem.wsPlus],
    tmpl := [TItem.lit (chars "\n")],
    cnt := 0 }

/-- The `re.sub` call at line 381 of apply-phase-4a-complete.py (rule 22 of its pipeline). -/
def completeRule22 : Rule :=
  { pat := [RItem.lit (chars "fastify.post<\x7b"),
      RItem.wsPlus,
      RItem.lit (chars "Params: \x7b divisionId: number \x7d;"),
      RItem.wsPlus,
      RItem.lit (chars "Body: z.infer<typeof "),
      RItem.alt2 (chars "bulkCreatePoolsSchema") (chars "createPoolSchema"),
      RItem.lit (chars ">;"),
      RItem.wsPlus,
      RItem.lit (chars "\x7d>\x27(\x27/divisions/:divisionId/pools\x27,")],
    tmpl := [TItem.lit (chars "fastify.post<\x7b\n    Params: z.infer<typeof divisionIdParamsSchema>;\n    Body: z.infer<typeof "),
      TItem.ref 1,
      TItem.lit (chars ">;\n  \x7d>(\x27/tournaments/:tournamentId/divisions/:divisionId/pools\x27,")],
    cnt := 0 }

/-- The `re.sub` call at line 381 of apply-phase-4a-complete.py (rule 23 of its pipeline). -/
def completeRule23 : Rule :=
  { pat := [RItem.lit (chars "fastify.post<\x7b"),
      RItem.wsPlus,
      RItem.lit (chars "Params: \x7b divisionId: number \x7d;"),
      RItem.wsPlus,
      RItem.lit (chars "Body: z.infer<typeof "),
      RItem.alt2 (chars "bulkCreatePoolsSchema") (chars "createPoolSchema"),
      RItem.lit (chars ">;"),
      RItem.wsPlus,
      RItem.lit (chars "\x7d>\x27(\x27/divisions/:divisionId/pools/bulk\x27,")],
    tmpl := [TItem.lit (chars "fastify.post<\x7b\n    Params: z.infer<typeof divisionIdParamsSchema>;\n    Body: z.infer<typeof "),
      TItem.ref 1,
      TItem.lit (chars ">;\n  \x7d>(\x27/tournaments/:tournamentId/divisions/:divisionId/pools/bulk\x27,")],
    cnt := 0 }

/-- The `re.sub` call at line 390 of apply-phase-4a-complete.py (rule 24 of its pipeline). -/
def completeRule24 : Rule :=
  { pat := [RItem.grp [RItem.lit (chars "\x7d>\x27(\x27/tournaments/:tournamentId/divisions/:divisionId/pools/bulk\x27,"),
          RItem.dotLazy,
          RItem.lit (chars "\x7d, async (request, reply) => \x7b")],
      RItem.wsPlus,
      RItem.lit (chars "const divisionId = Number(request.params.divisionId);")],
    tmpl := [TItem.ref 1,
      TItem.lit (chars "\n    // Validate params\n    const paramsResult = divisionIdParamsSchema.safeParse(request.params);\n    if (!paramsResult.success) \x7b\n      return reply.status(400).send(\x7b\n        error: \x27Invalid parameters\x27,\n        details: paramsResult.error.flatten(),\n      \x7d);\n    \x7d\n\n    const \x7b tournamentId, divisionId \x7d = paramsResult.data;")],
    cnt := 0 }

/-- The `re.sub` call at line 408 of apply-phase-4a-complete.py (rule 25 of its pipeline). -/
def completeRule25 : Rule :=
  { pat := [RItem.wsPlus,
      RItem.lit (chars "if (isNaN(divisionId)) \x7b"),
      RItem.wsPlus,
      RItem.lit (chars "return reply.status(400).send(\x7b"),
      RItem.wsPlus,
      RItem.lit (chars "error: \x27Invalid division ID\x27,"),
      RItem.wsPlus,
      RItem.lit (chars "\x7d);"),
      RItem.wsPlus,
      RItem.lit (chars "\x7d"),
      RItem.wsPlus],
    tmpl := [TItem.lit (chars "\n")],
    cnt := 0 }

/-- The `re.sub` call at line 415 of apply-phase-4a-complete.py (rule 26 of its pipeline). -/
def completeRule26 : Rule :=
  { pat := [RItem.grp [RItem.lit (chars "const \x7b pools: poolsToCreate \x7d = bodyResult.data;"),
          RItem.dotLazy,
          RItem.lit (chars "try \x7b")],
      RItem.wsPlus,
      RItem.lit (chars "// Verify division exists")],
    tmpl := [TItem.ref 1,
      TItem.lit (chars "\n      // Validate division belongs to tournament\n      const validDivision = await validateDivisionInTournament(tournamentId, divisionId, reply);\n      if (!validDivision) return;\n\n      // Division validated - proceed\n      // Verify division exists (redundant but kept)")],
    cnt := 1 }

/-- The `re.sub` call at line 390 of apply-phase-4a-complete.py (rule 27 of its pipeline). -/
def completeRule27 : Rule :=
  { pat := [RItem.grp [RItem.lit (chars "\x7d>\x27(\x27/tournaments/:tournamentId/divisions/:divisionId/pools\x27,"),
          RItem.dotLazy,
          RItem.lit (chars "\x7d, async (request, reply) => \x7b")],
      RItem.wsPlus,
      RItem.lit (chars "const divisionId = Number(request.params.divisionId);")],
    tmpl := [TItem.ref 1,
      TItem.lit (chars "\n    // Validate params\n    const paramsResult = divisionIdParamsSchema.safeParse(request.params);\n    if (!paramsResult.success) \x7b\n      return reply.status(400).send(\x7b\n        error: \x27Invalid parameters\x27,\n        details: paramsResult.error.flatten(),\n      \x7d);\n    \x7d\n\n    const \x7b tournamentId, divisionId \x7d = paramsResult.data;")],
    cnt := 0 }

/-- The `re.sub` call at line 408 of apply-phase-4a-complete.py (rule 28 of its pipeline). -/
def completeRule28 : Rule :=
  { pat := [RItem.wsPlus,
      RItem.lit (chars "if (isNaN(divisionId)) \x7b"),
      RItem.wsPlus,
      RItem.lit (chars "return reply.status(400).send(\x7b"),
      RItem.wsPlus,
      RItem.lit (chars "error: \x27Invalid division ID\x27,"),
      RItem.wsPlus,
      RItem.lit (chars "\x7d);"),
      RItem.wsPlus,
      RItem.lit (chars "\x7d"),
      RItem.wsPlus],
    tmpl := [TItem.lit (chars "\n")],
    cnt := 0 }

/-- The `re.sub` call at line 415 of apply-phase-4a-complete.py (rule 29 of its pipeline). -/
def completeRule29 : Rule :=
  { pat := [RItem.grp [RItem.lit (chars "const \x7b pools: poolsToCreate \x7d = bodyResult.data;"),
          RItem.dotLazy,
          RItem.lit (chars "try \x7b")],
      RItem.wsPlus,
      RItem.lit (chars "// Verify division exists")],
    tmpl := [TItem.ref 1,
      TItem.lit (chars "\n      // Validate division belongs to tournament\n      const validDivision = await validateDivisionInTournament(tournamentId, divisionId, reply);\n      if (!validDivision) return;\n\n      // Division validated - proceed\n      // Verify division exists (redundant but kept)")],
    cnt := 1 }

/-- The `re.sub` call at line 430 of apply-phase-4a-complete.py (rule 30 of its pipeline). -/
def completeRule30 : Rule :=
  { pat := [RItem.grp [RItem.lit (chars "const \x7b name, label, orderIndex \x7d = bodyResult.data;")],
      RItem.wsPlus,
      RItem.grp [RItem.lit (chars "try \x7b")],
      RItem.wsPlus,
      RItem.lit (chars "// Verify division exists")],
    tmpl := [TItem.ref 1,
      TItem.lit (chars "\n\n    "),
      TItem.ref 2,
      TItem.lit (chars "\n      // Validate division belongs to tournament\n      const validDivision = await validateDivisionInTournament(tournamentId, divisionId, reply);\n      if (!validDivision) return;\n\n      // Division validated - proceed\n      // Verify division exists (redundant but kept)")],
    cnt := 1 }

/-- The ordered rule list of `update_divisions_file` in apply-phase-4a-complete.py. -/
def completeRules : List Rule :=
  [completeRule1,
   completeRule2,
   completeRule3,
   completeRule4,
   completeRule5,
   completeRule6,
   completeRule7,
   completeRule8,
   completeRule9,
   completeRule10,
   completeRule11,
   completeRule12,
   completeRule13,
   completeRule14,
   completeRule15,
   completeRule16,
   completeRule17,
   completeRule18,
   completeRule19,
   completeRule20,
   completeRule21,
   completeRule22,
   completeRule23,
   completeRule24,
   completeRule25,
   completeRule26,
   completeRule27,
   completeRule28,
   completeRule29,
   completeRule30]

/-! ## The two scripts

`update_divisions_file` in each script is a straight-line chain of
`content = re.sub(...)` reassignments; `main` reads one hard-coded path,
applies the chain, and writes the result back to the same path. -/

/-- A file system: file contents by absolute path (`none` = absent). -/
def FS : Type := String → Option String

/-- Observable outcome of one script process: resulting file system, lines
printed to stdout, and the process exit code. -/
structure RunResult where
  fs : FS
  prints : List String
  exit : Nat

/-- The one hard-coded path both scripts read and write
(apply-phase-4a-changes.py lines 91 and 98, apply-phase-4a-complete.py
line 449). -/
def divisionsPath : String :=
  "/home/piouser/eztourneyz/backend/apps/api/src/routes/divisions.ts"

/-- The teams.ts path next to it.  Both module docstrings announce updates
to teams.ts, but no statement in either script mentions this path. -/
def teamsPath : String :=
  "/home/piouser/eztourneyz/backend/apps/api/src/routes/teams.ts"

/-- Overwrite one path of a file system. -/
def writeFile (fs : FS) (path : String) (content : String) : FS :=
  fun q => if q = path then some content else fs q

namespace Changes

/-- `update_divisions_file` of apply-phase-4a-changes.py (lines 10-87):
the five `re.sub` reassignments of `content`, in program order. -/
def update_divisions_file (content : String) : Option String := do
  let content ← applyRule changesRule1 content
  let content ← applyRule changesRule2 content
  let content ← applyRule changesRule3 content
  let content ← applyRule changesRule4 content
  let content ← applyRule changesRule5 content
  pure content

/-- `main` of apply-phase-4a-changes.py (lines 89-101) as a file-system
transformer: read divisions.ts, apply `update_divisions_file`, write the
result back to the same path, print the success line, exit 0.  A missing
input file (or a raised `re.error`) aborts with an uncaught exception
before the file is opened for writing: nothing is written or printed and
the interpreter exits with code 1. -/
def main (fs : FS) : RunResult :=
  match fs divisionsPath with
  | none => { fs := fs, prints := [], exit := 1 }
  | some divisions_content =>
    match update_divisions_file divisions_content with
    | none => { fs := fs, prints := [], exit := 1 }
    | some updated_content =>
      { fs := writeFile fs divisionsPath updated_content
        prints := ["✅ divisions.ts updated successfully"]
        exit := 0 }

/-- `main` of apply-phase-4a-changes.py with a write fault injected after
`k` bytes: the script writes with `open(path, "w")` followed by
`f.write(...)` in place — no temporary file, no atomic rename — so the
`open` truncates the target and an interrupted write leaves only the
first `k` bytes of the output.  The success line is printed only after
the write block, so nothing is printed; the uncaught exception exits
with code 1. -/
def mainWriteFail (k : Nat) (fs : FS) : RunResult :=
  match fs divisionsPath with
  | none => { fs := fs, prints := [], exit := 1 }
  | some divisions_content =>
    match update_divisions_file divisions_content with
    | none => { fs := fs, prints := [], exit := 1 }
    | some updated_content =>
      { fs := writeFile fs divisionsPath (String.mk (updated_content.data.take k))
        prints := []
        exit := 1 }

end Changes

namespace Complete

/-- `update_divisions_file` of apply-phase-4a-complete.py (lines 14-445),
as spelled: the thirty `re.sub` reassignments of `content` in program
order, with the two `for` loops unrolled in iteration order
(completeRule8-10 for the get/put/delete loop at lines 230-238,
completeRule22-23 and completeRule24-29 for the pool loops at lines
380-427), applied as the sequential fold over `completeRules`, which lists the thirty rules in program order.  NOTE: the committed file never executes this function — see
`Complete.main`.  CPython rejects the f-string literals at lines 234, 236,
383 and 391, each containing a lone closing brace; this definition reads
those literals as the text they spell, with doubled braces undoubled and
the lone closing brace taken literally. -/
def update_divisions_file (content : String) : Option String :=
  applyRules completeRules content

/-- Running `python3 apply-phase-4a-complete.py`: CPython compiles the
whole module before executing any statement, and compilation fails with a
SyntaxError at line 234 (an f-string containing a lone closing brace; the
literals at lines 236, 383 and 391 have the same defect).  No statement
ever executes: nothing is printed to stdout, no file is read or written,
and the interpreter exits with code 1. -/
def main (fs : FS) : RunResult :=
  { fs := fs, prints := [], exit := 1 }

end Complete

/-! ## Concrete inputs used by witnesses and counterexamples -/

/-- The capture-group substitution example rule stated in the
specification (testable property list): matchPattern
route-open-quote-(/widgets)-quote-close with replacement template
splicing group 1 after the new path prefix. -/
def specWidgetsRule : Rule :=
  { pat := [RItem.lit (chars "route("),
      RItem.cls (chars "\x27\""),
      RItem.grp [RItem.lit (chars "/widgets")],
      RItem.cls (chars "\x27\""),
      RItem.lit (chars ")")],
    tmpl := [TItem.lit (chars "route(\x27/parents/:parentId"),
      TItem.ref 1,
      TItem.lit (chars "\x27)")],
    cnt := 0 }

/-- A rule whose replacement template references capture group 1 while its
pattern has no capturing group — the malformed-replacement scenario
(Python: `re.sub("zzz", "\\1", ...)`). -/
def badRefRule : Rule :=
  { pat := [RItem.lit (chars "zzz")],
    tmpl := [TItem.ref 1],
    cnt := 0 }

/-- The anchor text of changesRule3: the create-division-schema doc
comment.  changesRule3 inserts the new parameter-schema block before it
and keeps the anchor, so the rule matches its own output again. -/
def anchorText : String := "/**\n * Create division schema.\n */"

/-- Marker pattern locating the inserted parameter-schema block: the
declaration head of the first inserted schema. -/
def schemaMarker : List RItem :=
  [RItem.lit (chars "const tournamentParamsSchema")]

/-- The import line matched by changesRule2. -/
def importLine : String :=
  "import \x7b divisions, teams, pools, matches, players, court_assignments \x7d from \x27../lib/db/schema.js\x27;"

/-- A text containing the changesRule2 pattern exactly three times. -/
def tripleImport : String := importLine ++ "\n" ++ importLine ++ "\n" ++ importLine

/-- A route-registration snippet matched by completeRule2. -/
def postRouteText : String :=
  "fastify.post<\x7b\n  Body: z.infer<typeof createDivisionSchema>;\n  \x7d>\x27(\x27/divisions\x27,"

/-- File system holding content `c` at the divisions.ts path and nothing
else. -/
def fsWith (c : String) : FS :=
  fun p => if p = divisionsPath then some c else none

/-- File system holding content `c` at the divisions.ts path and a dummy
file everywhere else (used to vary the surroundings of a run). -/
def fsWithNoise (c : String) : FS :=
  fun p => if p = divisionsPath then some c else some "unrelated"

/-- The empty file system (no file exists). -/
def fsEmpty : FS := fun _ => none

/-! ## General engine lemmas -/

theorem mk_data (t : String) : String.mk t.data = t := rfl

/-- A zero match count (under any sufficient scan fuel) forces the
replacement loop (under any sufficient fuel and any budget) to copy the
text unchanged with zero replacements: both walk the same positions and
consult the same `matchHere`. -/
theorem subnGoF_of_cmGo_zero (p : List RItem) (tm : List TItem) :
    ∀ (f g : Nat) (t : List Char) (left : Option Nat),
      t.length < f → t.length < g → cmGo p f t = 0 →
      subnGoF p tm g t left = (t, 0)
  | 0, _, t, _, hf, _, _ => absurd hf (by omega)
  | _ + 1, 0, t, _, _, hg, _ => absurd hg (by omega)
  | _ + 1, g + 1, [], left, _, _, h0 => by
      simp only [cmGo] at h0
      have hm : matchHere p [] = none := by
        cases hm : matchHere p [] with
        | none => rfl
        | some pr => rw [hm] at h0; simp at h0
      simp [subnGoF, hm]
  | f + 1, g + 1, c :: t1, left, hf, hg, h0 => by
      simp only [cmGo] at h0
      cases hm : matchHere p (c :: t1) with
      | some pr => simp only [hm] at h0; omega
      | none =>
          simp only [hm] at h0
          have hlen1 : t1.length < f := by
            simp only [List.length_cons] at hf; omega
          have hlen2 : t1.length < g := by
            simp only [List.length_cons] at hg; omega
          have ih := subnGoF_of_cmGo_zero p tm f g t1 left hlen1 hlen2 h0
          by_cases hl : left = some 0
          · simp [subnGoF, hl]
          · simp [subnGoF, hl, hm, ih]
termination_by f => f

/-- With an unlimited budget, the number of substitutions the replacement
loop performs equals the scan match count. -/
theorem subnGoF_snd_eq_cmGo (p : List RItem) (tm : List TItem) :
    ∀ (f g : Nat) (t : List Char),
      t.length < f → t.length < g →
      (subnGoF p tm f t none).2 = cmGo p g t
  | 0, _, t, hf, _ => absurd hf (by omega)
  | _ + 1, 0, t, _, hg => absurd hg (by omega)
  | _ + 1, g + 1, [], _, _ => by
      cases hm : matchHere p [] <;> simp [subnGoF, cmGo, hm]
  | f + 1, g + 1, c :: t1, hf, hg => by
      cases hm : matchHere p (c :: t1) with
      | none =>
          have hlen1 : t1.length < f := by
            simp only [List.length_cons] at hf; omega
          have hlen2 : t1.length < g := by
            simp only [List.length_cons] at hg; omega
          have ih := subnGoF_snd_eq_cmGo p tm f g t1 hlen1 hlen2
          simp [subnGoF, cmGo, hm, ih]
      | some pr =>
          have hlen1 : (t1.drop (pr.2 - 1)).length < f := by
            simp only [List.length_cons] at hf
            simp only [List.length_drop]; omega
          have hlen2 : (t1.drop (pr.2 - 1)).length < g := by
            simp only [List.length_cons] at hg
            simp only [List.length_drop]; omega
          have ih := subnGoF_snd_eq_cmGo p tm f g (t1.drop (pr.2 - 1)) hlen1 hlen2
          have key : (subnGoF p tm (f + 1) (c :: t1) none).2 =
              (subnGoF p tm f (t1.drop (pr.2 - 1)) none).2 + 1 := by
            simp only [subnGoF, hm, decOpt]
            by_cases h2 : pr.2 = 0 <;> simp [h2]
          rw [key, ih]
          simp only [cmGo, hm]
          omega
termination_by f => f

/-- A rule with a valid template and zero occurrences of its pattern in
the text returns the text unchanged (re.sub with zero matches). -/
theorem applyRule_of_nomatch (r : Rule) (t : String)
    (hv : maxRef r.tmpl ≤ groupCount r.pat)
    (h0 : countMatches r.pat t.data = 0) :
    applyRule r t = some t := by
  simp only [countMatches] at h0
  have h := subnGoF_of_cmGo_zero r.pat r.tmpl (t.data.length + 1) (t.data.length + 1)
      t.data (if r.cnt = 0 then none else some r.cnt)
      (Nat.lt_succ_self _) (Nat.lt_succ_self _) h0
  show (subn r t.data).map (fun pr => String.mk pr.1) = some t
  unfold subn subnGo
  rw [if_pos hv, h]
  simp [mk_data]

/-- With count 0 (unlimited) and a valid template, the substitution count
of `re.subn` equals the number of non-overlapping matches. -/
theorem subn_snd_eq_countMatches (r : Rule) (t : List Char)
    (hc : r.cnt = 0) (hv : maxRef r.tmpl ≤ groupCount r.pat) :
    (subn r t).map Prod.snd = some (countMatches r.pat t) := by
  have h := subnGoF_snd_eq_cmGo r.pat r.tmpl (t.length + 1) (t.length + 1) t
      (Nat.lt_succ_self _) (Nat.lt_succ_self _)
  unfold subn subnGo
  rw [if_pos hv, hc]
  simp [countMatches, h]

theorem applyRules_nil (t : String) : applyRules [] t = some t := rfl

theorem applyRules_cons (r : Rule) (rs : List Rule) (t : String) :
    applyRules (r :: rs) t = (applyRule r t).bind fun u => applyRules rs u := by
  cases h : applyRule r t <;> simp [applyRules, List.foldlM, h]

/-- Sequential composition: the pipeline of a concatenated rule list is
the pipeline of the first part followed by the pipeline of the second on
its output. -/
theorem applyRules_append (rs1 rs2 : List Rule) (t : String) :
    applyRules (rs1 ++ rs2) t = (applyRules rs1 t).bind fun u => applyRules rs2 u := by
  induction rs1 generalizing t with
  | nil => simp [applyRules_nil]
  | cons r rs ih =>
      simp only [List.cons_append, applyRules_cons, ih]
      cases applyRule r t <;> simp

/-- The literal five-step chain of apply-phase-4a-changes.py is the
ordered fold of its declared rule list. -/
theorem update_changes_eq (t : String) :
    Changes.update_divisions_file t = applyRules changesRules t := rfl

theorem teams_ne_divisions : teamsPath ≠ divisionsPath := by decide

/-- Whatever a changes-script run does to divisions.ts, every other path
is untouched. -/
theorem changes_main_frame (fs : FS) (p : String) (hp : p ≠ divisionsPath) :
    (Changes.main fs).fs p = fs p := by
  cases h1 : fs divisionsPath with
  | none => simp [Changes.main, h1]
  | some c =>
    cases h2 : Changes.update_divisions_file c with
    | none => simp [Changes.main, h1, h2]
    | some u => simp [Changes.main, h1, h2, writeFile, hp]

/-- The same for a run whose write fails. -/
theorem changes_mainWriteFail_frame (k : Nat) (fs : FS) (p : String)
    (hp : p ≠ divisionsPath) :
    (Changes.mainWriteFail k fs).fs p = fs p := by
  cases h1 : fs divisionsPath with
  | none => simp [Changes.mainWriteFail, h1]
  | some c =>
    cases h2 : Changes.update_divisions_file c with
    | none => simp [Changes.mainWriteFail, h1, h2]
    | some u => simp [Changes.mainWriteFail, h1, h2, writeFile, hp]

/-- The observable outcome of a changes-script run depends only on the
content stored at the divisions.ts path. -/
theorem changes_main_content (fs1 fs2 : FS)
    (h : fs1 divisionsPath = fs2 divisionsPath) :
    (Changes.main fs1).prints = (Changes.main fs2).prints ∧
    (Changes.main fs1).exit = (Changes.main fs2).exit ∧
    (Changes.main fs1).fs divisionsPath = (Changes.main fs2).fs divisionsPath := by
  cases h2 : fs2 divisionsPath with
  | none => simp [Changes.main, h, h2]
  | some c =>
    cases h3 : Changes.update_divisions_file c with
    | none => simp [Changes.main, h, h2, h3]
    | some u => simp [Changes.main, h, h2, h3, writeFile]

/-- Every rule of apply-phase-4a-changes.py has a template whose group
references all exist in its own pattern. -/
theorem changesValid : ∀ r ∈ changesRules, maxRef r.tmpl ≤ groupCount r.pat := by
  decide

/-- A pipeline every one of whose rules has a valid template and zero
occurrences in `t` maps `t` to itself. -/
theorem applyRules_of_nomatch (rs : List Rule) (t : String)
    (hv : ∀ r ∈ rs, maxRef r.tmpl ≤ groupCount r.pat)
    (h0 : ∀ r ∈ rs, countMatches r.pat t.data = 0) :
    applyRules rs t = some t := by
  induction rs with
  | nil => rfl
  | cons r rs ih =>
      rw [applyRules_cons,
        applyRule_of_nomatch r t (hv r (List.mem_cons_self r rs))
          (h0 r (List.mem_cons_self r rs))]
      simpa using ih (fun x hx => hv x (List.mem_cons_of_mem r hx))
        (fun x hx => h0 x (List.mem_cons_of_mem r hx))

/-! ## Claims -/

/-- C1: in each script, `update_divisions_file` is exactly the ordered
sequential composition of its declared rule list: the literal chain of
`re.sub` reassignments in apply-phase-4a-changes.py equals the left fold
of `applyRule` over `changesRules` in declaration order, the
apply-phase-4a-complete.py pipeline is the same fold over
`completeRules`, and splitting a rule list anywhere factors the pipeline
into the composition of the two parts — each rule reads the output text
of the previous rule, and no reordering is possible. -/
theorem c1_rules_in_declared_order :
    (∀ t, Changes.update_divisions_file t = applyRules changesRules t) ∧
    (∀ t, Complete.update_divisions_file t = applyRules completeRules t) ∧
    (∀ rs1 rs2 t, applyRules (rs1 ++ rs2) t =
      (applyRules rs1 t).bind fun u => applyRules rs2 u) :=
  ⟨update_changes_eq, fun _ => rfl, applyRules_append⟩

/-- C2 (amended): a rule with a valid template whose pattern has zero
occurrences in its input returns the input unchanged, and the pipeline
continues with the unchanged text.  (No run report records the
non-match: the scripts print only fixed messages — see the
counterexample.) -/
theorem c2_nomatch_rule_is_identity (r : Rule) (rs : List Rule) (t : String)
    (hv : maxRef r.tmpl ≤ groupCount r.pat)
    (h0 : countMatches r.pat t.data = 0) :
    applyRule r t = some t ∧ applyRules (r :: rs) t = applyRules rs t := by
  have ha := applyRule_of_nomatch r t hv h0
  exact ⟨ha, by rw [applyRules_cons, ha]; simp⟩

/-- C2 witness: changesRule1 does not occur in the text xyz; applying it
leaves the text unchanged and the two-rule pipeline degenerates to the
one-rule pipeline. -/
theorem c2_witness :
    (maxRef changesRule1.tmpl ≤ groupCount changesRule1.pat ∧
      countMatches changesRule1.pat ("xyz" : String).data = 0) ∧
    (applyRule changesRule1 "xyz" = some "xyz" ∧
      applyRules [changesRule1, changesRule2] "xyz" =
        applyRules [changesRule2] "xyz") :=
  ⟨⟨by decide, by decide⟩,
   c2_nomatch_rule_is_identity changesRule1 [changesRule2] "xyz"
     (by decide) (by decide)⟩

/-- C2 counterexample: the operator-visible run report is the same fixed
success line whether a rule matched or not — a run on text where
changesRule3 matches once and a run on text where it matches zero times
print identical output, so no rule is ever recorded as non-matching. -/
theorem c2_counterexample :
    countMatches changesRule3.pat anchorText.data = 1 ∧
    countMatches changesRule3.pat ("hello" : String).data = 0 ∧
    (Changes.main (fsWith anchorText)).prints =
      (Changes.main (fsWith "hello")).prints ∧
    (Changes.main (fsWith anchorText)).exit = 0 ∧
    (Changes.main (fsWith "hello")).exit = 0 := by
  refine ⟨by decide, by decide, by decide, by decide, by decide⟩

/-- C3 (amended): on an input text in which no rule of
apply-phase-4a-changes.py has any occurrence, the pipeline returns the
text unchanged, the run leaves divisions.ts holding exactly the input
text and exits 0 — but the stdout is a fixed success message, not a
per-rule zero-match report, and apply-phase-4a-complete.py never exits 0:
its committed file has a load-time SyntaxError, so it prints nothing and
exits 1 on every input. -/
theorem c3_noop_run (t : String) (fs : FS)
    (hall : ∀ r ∈ changesRules, countMatches r.pat t.data = 0)
    (hfs : fs divisionsPath = some t) :
    applyRules changesRules t = some t ∧
    (Changes.main fs).fs divisionsPath = some t ∧
    (Changes.main fs).exit = 0 ∧
    (Complete.main fs).exit = 1 ∧
    (Complete.main fs).prints = [] := by
  have hap := applyRules_of_nomatch changesRules t changesValid hall
  have hup : Changes.update_divisions_file t = some t := by
    rw [update_changes_eq]; exact hap
  refine ⟨hap, ?_, ?_, rfl, rfl⟩
  · simp [Changes.main, hfs, hup, writeFile]
  · simp [Changes.main, hfs, hup]

/-- C3 witness: no rule of the changes script occurs in the text hello;
the run keeps the file identical and exits 0, while the complete script
exits 1. -/
theorem c3_witness :
    ((∀ r ∈ changesRules, countMatches r.pat ("hello" : String).data = 0) ∧
      (fsWith "hello") divisionsPath = some "hello") ∧
    (applyRules changesRules "hello" = some "hello" ∧
      (Changes.main (fsWith "hello")).fs divisionsPath = some "hello" ∧
      (Changes.main (fsWith "hello")).exit = 0 ∧
      (Complete.main (fsWith "hello")).exit = 1 ∧
      (Complete.main (fsWith "hello")).prints = []) :=
  ⟨⟨by decide, by decide⟩,
   c3_noop_run "hello" (fsWith "hello") (by decide) (by decide)⟩

/-- C3 counterexample: even on an input in which none of its patterns
occur, a run of apply-phase-4a-complete.py exits 1 (load-time
SyntaxError) and reports nothing — the claimed exit code 0 and zero-match
report never happen. -/
theorem c3_counterexample :
    (∀ r ∈ completeRules, countMatches r.pat ("hello" : String).data = 0) ∧
    (Complete.main (fsWith "hello")).exit = 1 ∧
    (Complete.main (fsWith "hello")).prints = [] :=
  ⟨by decide, rfl, rfl⟩

/-- C4: the patch engine is deterministic and pure.  Each pipeline is a
pure function of the input text (two applications are definitionally
identical), two runs over file systems agreeing on divisions.ts print the
same output, exit alike and leave the same divisions.ts content, and a
run mutates no path other than divisions.ts. -/
theorem c4_deterministic_and_pure (fs1 fs2 : FS)
    (h : fs1 divisionsPath = fs2 divisionsPath) :
    (∀ t : String,
      Changes.update_divisions_file t = Changes.update_divisions_file t ∧
      Complete.update_divisions_file t = Complete.update_divisions_file t) ∧
    ((Changes.main fs1).prints = (Changes.main fs2).prints ∧
      (Changes.main fs1).exit = (Changes.main fs2).exit ∧
      (Changes.main fs1).fs divisionsPath = (Changes.main fs2).fs divisionsPath) ∧
    (∀ p, p ≠ divisionsPath → (Changes.main fs1).fs p = fs1 p) :=
  ⟨fun _ => ⟨rfl, rfl⟩, changes_main_content fs1 fs2 h,
   fun p hp => changes_main_frame fs1 p hp⟩

/-- C4 witness: two runs over different file systems holding the same
divisions.ts content agree on stdout, exit code and resulting
divisions.ts. -/
theorem c4_witness :
    (Changes.main (fsWith "hello")).prints =
      (Changes.main (fsWithNoise "hello")).prints ∧
    (Changes.main (fsWith "hello")).exit =
      (Changes.main (fsWithNoise "hello")).exit ∧
    (Changes.main (fsWith "hello")).fs divisionsPath =
      (Changes.main (fsWithNoise "hello")).fs divisionsPath :=
  (c4_deterministic_and_pure (fsWith "hello") (fsWithNoise "hello")
    (by decide)).2.1

/-- C5: capture-group substitution is template-based replacement: the
specification example rule applied to the widgets route literal yields
the parent-scoped path with group 1 spliced after the new prefix. -/
theorem c5_capture_group_substitution :
    applyRule specWidgetsRule "route(\x27/widgets\x27)" =
      some "route(\x27/parents/:parentId/widgets\x27)" := by
  decide

/-- C6 (amended): an unreadable input aborts the run before any mutation
(the read precedes the open-for-write), but the write is not atomic: the
script opens the target with truncation and writes in place, so a write
failure after k bytes leaves divisions.ts holding exactly the first k
bytes of the new output — a truncated file. -/
theorem c6_read_abort_write_truncates (fs : FS) (k : Nat) :
    (fs divisionsPath = none →
      (Changes.main fs).fs = fs ∧
      (Changes.main fs).exit = 1 ∧
      (Changes.main fs).prints = [] ∧
      (Changes.mainWriteFail k fs).fs = fs) ∧
    (∀ c u, fs divisionsPath = some c →
      Changes.update_divisions_file c = some u →
      (Changes.mainWriteFail k fs).fs divisionsPath =
        some (String.mk (u.data.take k)) ∧
      (Changes.mainWriteFail k fs).exit = 1) := by
  constructor
  · intro h
    refine ⟨?_, ?_, ?_, ?_⟩ <;>
      simp [Changes.main, Changes.mainWriteFail, h]
  · intro c u h1 h2
    constructor <;> simp [Changes.mainWriteFail, h1, h2, writeFile]

/-- C6 witness: with no input file the run changes nothing and exits 1;
with input hello, a write failing after 2 bytes leaves the 2-byte prefix
of the output in the file. -/
theorem c6_witness :
    ((Changes.main fsEmpty).fs = fsEmpty ∧
      (Changes.main fsEmpty).exit = 1) ∧
    (Changes.mainWriteFail 2 (fsWith "hello")).fs divisionsPath =
      some (String.mk (("hello" : String).data.take 2)) :=
  ⟨⟨((c6_read_abort_write_truncates fsEmpty 2).1 rfl).1,
    ((c6_read_abort_write_truncates fsEmpty 2).1 rfl).2.1⟩,
   ((c6_read_abort_write_truncates (fsWith "hello") 2).2 "hello" "hello"
     (by decide) (by decide)).1⟩

/-- C6 counterexample: a write failure at 0 bytes leaves divisions.ts
truncated to the empty file, not the preserved pre-write content the
claim requires. -/
theorem c6_counterexample :
    (fsWith "let x = 1;") divisionsPath = some "let x = 1;" ∧
    (Changes.mainWriteFail 0 (fsWith "let x = 1;")).fs divisionsPath =
      some "" ∧
    some ("" : String) ≠ some ("let x = 1;" : String) := by
  refine ⟨by decide, by decide, by decide⟩

/-- C7 (amended): re-running the changes-script rule set on its own
output is neither a no-op nor a clean failure: the insertion anchor of
changesRule3 (the create-division-schema doc comment) survives in the
output, still matching once, and re-applying the rule to that output
changes it again, double-inserting the parameter-schema block. -/
theorem c7_rerun_double_inserts :
    (Changes.update_divisions_file anchorText).map
      (fun s => countMatches changesRule3.pat s.data) = some 1 ∧
    (Changes.update_divisions_file anchorText).bind
      (applyRule changesRule3) ≠ Changes.update_divisions_file anchorText := by
  refine ⟨by decide, by decide⟩

/-- C7 counterexample: the full re-run on the pipeline output succeeds
(no clean failure), differs from the first output (no no-op), and holds
the inserted schema block twice where the first output holds it once. -/
theorem c7_counterexample :
    (Changes.update_divisions_file anchorText).bind
      Changes.update_divisions_file ≠
      Changes.update_divisions_file anchorText ∧
    ((Changes.update_divisions_file anchorText).bind
      Changes.update_divisions_file).isSome = true ∧
    (Changes.update_divisions_file anchorText).map
      (fun s => countMatches schemaMarker s.data) = some 1 ∧
    ((Changes.update_divisions_file anchorText).bind
      Changes.update_divisions_file).map
      (fun s => countMatches schemaMarker s.data) = some 2 := by
  refine ⟨by decide, by decide, by decide, by decide⟩

/-- C8 (amended): a rule invoked without an occurrence limit (count 0)
and with a valid template transforms every occurrence: the number of
substitutions performed equals the number of non-overlapping matches — 3
when the pattern occurs exactly three times.  (No occurrence count is
reported to the operator — see the counterexample.) -/
theorem c8_unlimited_transforms_all (r : Rule) (t : String)
    (hc : r.cnt = 0) (hv : maxRef r.tmpl ≤ groupCount r.pat)
    (h3 : countMatches r.pat t.data = 3) :
    (subn r t.data).map Prod.snd = some 3 := by
  rw [subn_snd_eq_countMatches r t.data hc hv, h3]

/-- C8 witness: the import line pattern of changesRule2 occurs three
times in `tripleImport` and all three occurrences are substituted. -/
theorem c8_witness :
    (changesRule2.cnt = 0 ∧
      maxRef changesRule2.tmpl ≤ groupCount changesRule2.pat ∧
      countMatches changesRule2.pat tripleImport.data = 3) ∧
    (subn changesRule2 tripleImport.data).map Prod.snd = some 3 :=
  ⟨⟨by decide, by decide, by decide⟩,
   c8_unlimited_transforms_all changesRule2 tripleImport
     (by decide) (by decide) (by decide)⟩

/-- C8 counterexample: on a file whose content matches changesRule2 three
times, the changes-script run prints only the fixed success line — no
occurrence count of any kind — and the complete script prints nothing. -/
theorem c8_counterexample :
    countMatches changesRule2.pat tripleImport.data = 3 ∧
    (Changes.main (fsWith tripleImport)).prints =
      ["✅ divisions.ts updated successfully"] ∧
    (Complete.main (fsWith tripleImport)).prints = [] := by
  refine ⟨by decide, by decide, rfl⟩

/-- C9 (amended): a rule whose template references a capture group absent
from its pattern fails loudly whenever its re.sub call executes — CPython
validates the template eagerly, even on text with zero occurrences — and
never silently emits the literal template text; but the failure happens
at application time inside the pipeline, after earlier rules have already
transformed the text, not at a separate rule-definition stage. -/
theorem c9_bad_reference_always_raises (r : Rule)
    (h : groupCount r.pat < maxRef r.tmpl) :
    ∀ t : String, applyRule r t = none := by
  intro t
  have hn : ¬ maxRef r.tmpl ≤ groupCount r.pat := by omega
  simp [applyRule, subn, hn]

/-- C9 witness: the malformed rule raises on a text its pattern does not
even occur in. -/
theorem c9_witness :
    groupCount badRefRule.pat < maxRef badRefRule.tmpl ∧
    applyRule badRefRule "no occurrence here" = none :=
  ⟨by decide,
   c9_bad_reference_always_raises badRefRule (by decide) "no occurrence here"⟩

/-- C9 counterexample: in the pipeline changesRule3-then-badRefRule
applied to the anchor text, the malformed rule raises only when its own
re.sub executes: the whole pipeline fails, yet the first rule alone had
already produced a transformed text — so the failure is not at
rule-definition time before any text is transformed. -/
theorem c9_counterexample :
    applyRules [changesRule3, badRefRule] anchorText = none ∧
    (applyRule changesRule3 anchorText).isSome = true ∧
    applyRule changesRule3 anchorText ≠ some anchorText := by
  refine ⟨by decide, by decide, by decide⟩

/-- C10 (amended): a run of apply-phase-4a-changes.py reads and writes
only the divisions.ts path: every other path — teams.ts in particular —
is untouched even when the write fails, and the observable outcome
depends only on the divisions.ts content.  A run of
apply-phase-4a-complete.py touches no file at all. -/
theorem c10_single_path (fs : FS) (p : String) (hp : p ≠ divisionsPath) :
    (Changes.main fs).fs p = fs p ∧
    (Changes.mainWriteFail 0 fs).fs p = fs p ∧
    (Changes.main fs).fs teamsPath = fs teamsPath ∧
    (Complete.main fs).fs = fs ∧
    (∀ fs2 : FS, fs divisionsPath = fs2 divisionsPath →
      (Changes.main fs).prints = (Changes.main fs2).prints ∧
      (Changes.main fs).exit = (Changes.main fs2).exit ∧
      (Changes.main fs).fs divisionsPath = (Changes.main fs2).fs divisionsPath) :=
  ⟨changes_main_frame fs p hp,
   changes_mainWriteFail_frame 0 fs p hp,
   changes_main_frame fs teamsPath teams_ne_divisions,
   rfl,
   fun fs2 h => changes_main_content fs fs2 h⟩

/-- C10 witness: with divisions.ts holding hello, a run leaves teams.ts
untouched and the complete script leaves the whole file system as it
was. -/
theorem c10_witness :
    (Changes.main (fsWith "hello")).fs teamsPath =
      (fsWith "hello") teamsPath ∧
    (Complete.main (fsWith "hello")).fs = fsWith "hello" :=
  ⟨(c10_single_path (fsWith "hello") teamsPath (by decide)).2.2.1,
   (c10_single_path (fsWith "hello") teamsPath (by decide)).2.2.2.1⟩

/-- C10 counterexample: a run of apply-phase-4a-complete.py writes no
file: on a divisions.ts whose content its rule set would transform, the
file still holds the original content after the run and nothing is
printed — the claim that every run of either script reads and writes the
divisions.ts path fails for the complete script. -/
theorem c10_counterexample :
    Complete.update_divisions_file postRouteText ≠ some postRouteText ∧
    (Complete.main (fsWith postRouteText)).fs divisionsPath =
      some postRouteText ∧
    (Complete.main (fsWith postRouteText)).prints = [] := by
  refine ⟨by decide, by decide, rfl⟩

end Phase4A
